import Mathlib

/-!
Verification development for the NeRS driver (`main.py`) and its scene
loader (`ners/data.py`).

The Python source is shallowly embedded:
* machine integers become `ℤ`/`ℕ`;
* the float arithmetic of the bounding-box normalisation (halving integer
  coordinates, multiplying by `1 + pad_size`) is modelled over `ℚ`, with
  numpy's `astype(int)` cast modelled as truncation toward zero (`truncQ`);
* fallible code (`np.min` over an empty selection raising) returns `Except`;
* the orchestrator `main` is modelled as the trace of externally visible
  events it performs, in program order;
* the operating system's directory listing (`os.listdir`, `glob`), whose
  order is unspecified, is passed in as an explicit listing argument.
-/

/-- An axis-aligned box `(x0, y0, x1, y1)` in original-image pixel
coordinates, as used throughout `ners/data.py` (xyxy convention). -/
structure Box where
  x0 : ℤ
  y0 : ℤ
  x1 : ℤ
  y1 : ℤ
deriving DecidableEq, Repr

/-- Truncation toward zero: the semantics of numpy's `astype(int)` applied
to a real value. -/
def truncQ (q : ℚ) : ℤ :=
  if q < 0 then ⌈q⌉ else ⌊q⌋

/-- The square-box computation of Directory mode (`load_data_from_dir`,
`ners/data.py` lines 48–50): real-valued center and half-extent
`s = max(width, height) / 2 * (1 + pad_size)`; the box
`(center - s, center + s)` is formed first and each coordinate is then
cast to int. -/
def square_bbox_dir (b : Box) (pad : ℚ) : Box :=
  let cx : ℚ := ((b.x0 : ℚ) + (b.x1 : ℚ)) / 2
  let cy : ℚ := ((b.y0 : ℚ) + (b.y1 : ℚ)) / 2
  let s : ℚ := ((max (b.x1 - b.x0) (b.y1 - b.y0) : ℤ) : ℚ) / 2 * (1 + pad)
  ⟨truncQ (cx - s), truncQ (cy - s), truncQ (cx + s), truncQ (cy + s)⟩

/-- The square-box computation of Multi-scene mode (`load_car_data`,
`ners/data.py` lines 136–139): center and half-extent are each cast to int
first, and the box `(center - s, center + s)` is then formed in integer
arithmetic. -/
def square_bbox_mvmc (b : Box) (pad : ℚ) : Box :=
  let cx : ℤ := truncQ (((b.x0 : ℚ) + (b.x1 : ℚ)) / 2)
  let cy : ℤ := truncQ (((b.y0 : ℚ) + (b.y1 : ℚ)) / 2)
  let s : ℤ := truncQ (((max (b.x1 - b.x0) (b.y1 - b.y0) : ℤ) : ℚ) / 2 * (1 + pad))
  ⟨cx - s, cy - s, cx + s, cy + s⟩

/-- Foreground pixels of a binary mask given in row-major order, as pairs
`(row, column)` — the coordinate lists `np.where(img != 0)` reports. -/
def fgPixels (mask : List (List Bool)) : List (ℕ × ℕ) :=
  (mask.enum.map (fun rc =>
    rc.2.enum.filterMap (fun cb =>
      if cb.2 then some (rc.1, cb.1) else none))).flatten

/-- Failure mode of the loader utilities: `np.min`/`np.max` over the empty
foreground selection raises (the spec's `EmptyMaskError`). -/
inductive DataError where
  | emptyMask
deriving DecidableEq, Repr

/-- `get_bbox` (`ners/data.py` lines 18–21): the box
`(min cols, min rows, max cols + 1, max rows + 1)` over the foreground
pixels of a binary mask; the reduction over an empty selection raises,
modelled as `Except.error`. -/
def get_bbox (mask : List (List Bool)) : Except DataError Box :=
  let pix := fgPixels mask
  match (pix.map Prod.snd).min?, (pix.map Prod.fst).min?,
      (pix.map Prod.snd).max?, (pix.map Prod.fst).max? with
  | some xmin, some ymin, some xmax, some ymax =>
      .ok ⟨(xmin : ℤ), (ymin : ℤ), (xmax : ℤ) + 1, (ymax : ℤ) + 1⟩
  | _, _, _, _ => .error .emptyMask

/-- Device split computed by `main` (`main.py` lines 163–169). `gpu_ids`
is the device list handed to the main optimization; `gpu_id_illumination`
is the device reserved for the illumination sub-task (`None` when
illumination is not requested). The illumination id is kept in `ℤ` because
Python computes `num_gpus - 1`, which is `-1` when no device exists. -/
structure GpuAssignment where
  gpu_ids : List ℕ
  gpu_id_illumination : Option ℤ
deriving DecidableEq, Repr

/-- The Resource Partitioner (`main.py` lines 163–169): with illumination
requested, `gpu_ids = list(range(num_gpus - 1))` and
`gpu_id_illumination = num_gpus - 1`; otherwise all devices go to the main
optimization and no illumination device is assigned. -/
def partition_gpus (num_gpus : ℕ) (predict_illumination : Bool) : GpuAssignment :=
  if predict_illumination then
    ⟨List.range (num_gpus - 1), some ((num_gpus : ℤ) - 1)⟩
  else
    ⟨List.range num_gpus, none⟩

/-- Stage tags of the four visualization snapshots written by `main`
(`main.py` lines 203–225): `_1_initial_cameras.jpg` through
`_4_optimized_texture.jpg`, each with its title. -/
inductive StageLabel where
  | initialCameras
  | optimizedCameras
  | optimizedShape
  | optimizedTexture
deriving DecidableEq, Repr

/-- Externally visible events of one `main` invocation, in program order:
creating the output directory, writing a stage-tagged visualization
snapshot, running an optimization stage for its configured iteration
count, the `ValueError` raised when Directory mode finds no extents,
exporting one scene's mesh (named by scene id), and writing the
checkpoint (`save_parameters`). -/
inductive Event where
  | makeDirs
  | visualize (label : StageLabel)
  | optimizeCamera (iters : ℕ)
  | optimizeShape (iters : ℕ)
  | optimizeTexture (iters : ℕ)
  | optimizeIllumination (iters : ℕ)
  | raiseMissingExtents
  | saveObj (sceneId : ℤ)
  | saveParameters
deriving DecidableEq, Repr

/-- The command-line configuration of `main` that influences its control
flow (`get_parser`, `main.py`). -/
structure Args where
  mvmc : Bool
  force : Bool
  export_mesh : Bool
  predict_illumination : Bool
  num_iterations_camera : ℕ
  num_iterations_shape : ℕ
  num_iterations_texture : ℕ
deriving DecidableEq, Repr

/-- The event trace of `main` (`main.py` lines 140–253). `weights_exists`
abstracts `osp.exists(weights_path)`, `has_extents` abstracts
`"extents" in data_list` for Directory mode, and `scene_ids` is the loaded
`ners.scene_ids` sequence. After `os.makedirs`: if the checkpoint exists
and `--force` was not given, `main` returns at once; Directory mode
without extents raises; otherwise the stages run in program order —
four stage-tagged snapshots interleaved with camera, shape, and texture
optimization, then per-scene mesh export when requested, then the
checkpoint write. The illumination stage (`optimize_radiance`) is
commented out in the source and therefore never appears. -/
def main_trace (args : Args) (weights_exists : Bool) (has_extents : Bool)
    (scene_ids : List ℤ) : List Event :=
  Event.makeDirs ::
    (if !args.force && weights_exists then [] else
      if !args.mvmc && !has_extents then [Event.raiseMissingExtents] else
        [Event.visualize .initialCameras,
         Event.optimizeCamera args.num_iterations_camera,
         Event.visualize .optimizedCameras,
         Event.optimizeShape args.num_iterations_shape,
         Event.visualize .optimizedShape,
         Event.optimizeTexture args.num_iterations_texture,
         Event.visualize .optimizedTexture]
        ++ (if args.export_mesh then scene_ids.map Event.saveObj else [])
        ++ [Event.saveParameters])

/-- Predicate selecting visualization events of a trace. -/
def isVisualize : Event → Bool
  | .visualize _ => true
  | _ => false

/-- Predicate selecting optimization-stage events of a trace. -/
def isOptimizeStage : Event → Bool
  | .optimizeCamera _ => true
  | .optimizeShape _ => true
  | .optimizeTexture _ => true
  | .optimizeIllumination _ => true
  | _ => false

/-- Predicate selecting illumination-optimization events of a trace. -/
def isIlluminationStage : Event → Bool
  | .optimizeIllumination _ => true
  | _ => false

/-- Predicate selecting mesh-export events of a trace. -/
def isSaveObj : Event → Bool
  | .saveObj _ => true
  | _ => false

/-- Directory-mode view order (`load_data_from_dir`, `ners/data.py`
line 40): the filenames matched by `glob` — whose order the OS does not
specify, so the listing is an explicit argument — are passed through
`sorted`. Filenames are abstracted as naturals ordered like strings. -/
def dir_image_order (listing : List ℕ) : List ℕ :=
  listing.mergeSort Nat.ble

/-- Multi-scene-mode scene selection (`load_car_data`, `ners/data.py`
lines 109–113): `dirs = os.listdir(data_dir)` — unsorted, OS order — and
the first `num_scenes` entries of that listing are taken, in listing
order. -/
def scene_dirs (listing : List ℕ) (num_scenes : ℕ) : List ℕ :=
  listing.take num_scenes

/-- Per-scene view assembly of Multi-scene mode (`load_car_data`,
`ners/data.py` lines 131–162): the loop starts at annotation index 1 when
`reserve_first_image` is set (0 otherwise) and appends one record per
annotation, in annotation order; each stored `bbox` is the padded square
box of that annotation's box — no clamping to the image bounds happens
anywhere between its computation and its storage. A view is represented
by its stored square box. -/
def load_scene_views (pad : ℚ) (anns : List Box) (reserve_first_image : Bool) : List Box :=
  (if reserve_first_image then anns.drop 1 else anns).map
    (fun b => square_bbox_mvmc b pad)

example : fgPixels [[false, true], [true, false]] = [(0, 1), (1, 0)] := by rfl

example : get_bbox [[false, true], [true, false]] = .ok ⟨0, 0, 2, 2⟩ := by rfl

example : square_bbox_dir ⟨0, 0, 3, 4⟩ (1/10) = ⟨0, 0, 3, 4⟩ := by
  norm_num [square_bbox_dir, truncQ, Box.mk.injEq, Int.ceil_neg]

example : square_bbox_mvmc ⟨0, 0, 3, 4⟩ (1/10) = ⟨-1, 0, 3, 4⟩ := by
  norm_num [square_bbox_mvmc, truncQ, Box.mk.injEq, Int.ceil_neg]

example : square_bbox_mvmc ⟨0, 0, 1, 1⟩ (1/10) = ⟨0, 0, 0, 0⟩ := by
  norm_num [square_bbox_mvmc, truncQ, Box.mk.injEq, Int.ceil_neg]

example : square_bbox_dir ⟨0, 0, 2, 20⟩ (1/10) = ⟨-10, -1, 12, 21⟩ := by
  norm_num [square_bbox_dir, truncQ, Box.mk.injEq, Int.ceil_neg]

/-- Reduction over a map of a nonempty list yields a value. -/
theorem min_of_map_ne_nil {l : List (ℕ × ℕ)} (f : ℕ × ℕ → ℕ) (h : l ≠ []) :
    ∃ m, (l.map f).min? = some m := by
  cases hmin : (l.map f).min? with
  | some a => exact ⟨a, rfl⟩
  | none =>
      rw [List.min?_eq_none_iff, List.map_eq_nil_iff] at hmin
      exact absurd hmin h

/-- Reduction over a map of a nonempty list yields a value (max form). -/
theorem max_of_map_ne_nil {l : List (ℕ × ℕ)} (f : ℕ × ℕ → ℕ) (h : l ≠ []) :
    ∃ m, (l.map f).max? = some m := by
  cases hmax : (l.map f).max? with
  | some a => exact ⟨a, rfl⟩
  | none =>
      rw [List.max?_eq_none_iff, List.map_eq_nil_iff] at hmax
      exact absurd hmax h

/-- C7: for every binary mask with at least one foreground pixel,
`get_bbox` returns a box that contains every foreground pixel (pixel
`(row, col)` is in `(x0, y0, x1, y1)` iff `x0 ≤ col < x1` and
`y0 ≤ row < y1`), and every box containing all foreground pixels contains
the returned box — so no strictly smaller box covers them all. -/
theorem get_bbox_tight (mask : List (List Bool)) (h : fgPixels mask ≠ []) :
    ∃ b : Box, get_bbox mask = Except.ok b ∧
      (∀ p ∈ fgPixels mask,
        b.x0 ≤ (p.2 : ℤ) ∧ (p.2 : ℤ) < b.x1 ∧ b.y0 ≤ (p.1 : ℤ) ∧ (p.1 : ℤ) < b.y1) ∧
      ∀ c : Box,
        (∀ p ∈ fgPixels mask,
          c.x0 ≤ (p.2 : ℤ) ∧ (p.2 : ℤ) < c.x1 ∧ c.y0 ≤ (p.1 : ℤ) ∧ (p.1 : ℤ) < c.y1) →
        c.x0 ≤ b.x0 ∧ c.y0 ≤ b.y0 ∧ b.x1 ≤ c.x1 ∧ b.y1 ≤ c.y1 := by
  obtain ⟨xmin, hxmin⟩ := min_of_map_ne_nil Prod.snd h
  obtain ⟨ymin, hymin⟩ := min_of_map_ne_nil Prod.fst h
  obtain ⟨xmax, hxmax⟩ := max_of_map_ne_nil Prod.snd h
  obtain ⟨ymax, hymax⟩ := max_of_map_ne_nil Prod.fst h
  have hx := List.min?_eq_some_iff'.mp hxmin
  have hy := List.min?_eq_some_iff'.mp hymin
  have hx' := List.max?_eq_some_iff'.mp hxmax
  have hy' := List.max?_eq_some_iff'.mp hymax
  refine ⟨⟨(xmin : ℤ), (ymin : ℤ), (xmax : ℤ) + 1, (ymax : ℤ) + 1⟩, ?_, ?_, ?_⟩
  · simp only [get_bbox, hxmin, hymin, hxmax, hymax]
  · intro p hp
    have h1 : xmin ≤ p.2 := hx.2 p.2 (List.mem_map_of_mem Prod.snd hp)
    have h2 : ymin ≤ p.1 := hy.2 p.1 (List.mem_map_of_mem Prod.fst hp)
    have h3 : p.2 ≤ xmax := hx'.2 p.2 (List.mem_map_of_mem Prod.snd hp)
    have h4 : p.1 ≤ ymax := hy'.2 p.1 (List.mem_map_of_mem Prod.fst hp)
    refine ⟨?_, ?_, ?_, ?_⟩ <;> (dsimp only; omega)
  · intro c hc
    obtain ⟨p1, hp1, hp1e⟩ := List.mem_map.mp hx.1
    obtain ⟨p2, hp2, hp2e⟩ := List.mem_map.mp hy.1
    obtain ⟨p3, hp3, hp3e⟩ := List.mem_map.mp hx'.1
    obtain ⟨p4, hp4, hp4e⟩ := List.mem_map.mp hy'.1
    have c1 := hc p1 hp1
    have c2 := hc p2 hp2
    have c3 := hc p3 hp3
    have c4 := hc p4 hp4
    rw [hp1e] at c1
    rw [hp2e] at c2
    rw [hp3e] at c3
    rw [hp4e] at c4
    refine ⟨?_, ?_, ?_, ?_⟩ <;> (dsimp only; omega)

/-- Witness for C7 at the mask `[[false, true], [true, false]]`, whose
foreground pixels are `(0, 1)` and `(1, 0)`. -/
theorem get_bbox_tight_witness :
    fgPixels [[false, true], [true, false]] ≠ [] ∧
      (∃ b : Box, get_bbox [[false, true], [true, false]] = Except.ok b ∧
        (∀ p ∈ fgPixels [[false, true], [true, false]],
          b.x0 ≤ (p.2 : ℤ) ∧ (p.2 : ℤ) < b.x1 ∧ b.y0 ≤ (p.1 : ℤ) ∧ (p.1 : ℤ) < b.y1) ∧
        ∀ c : Box,
          (∀ p ∈ fgPixels [[false, true], [true, false]],
            c.x0 ≤ (p.2 : ℤ) ∧ (p.2 : ℤ) < c.x1 ∧ c.y0 ≤ (p.1 : ℤ) ∧ (p.1 : ℤ) < c.y1) →
          c.x0 ≤ b.x0 ∧ c.y0 ≤ b.y0 ∧ b.x1 ≤ c.x1 ∧ b.y1 ≤ c.y1) :=
  ⟨by decide, get_bbox_tight [[false, true], [true, false]] (by decide)⟩

/-- C8: for every binary mask with no foreground pixels, `get_bbox` fails
with the empty-mask error instead of returning a box. -/
theorem get_bbox_empty_mask (mask : List (List Bool)) (h : fgPixels mask = []) :
    get_bbox mask = Except.error DataError.emptyMask := by
  simp only [get_bbox, h, List.map_nil, List.min?_nil, List.max?_nil]

/-- Witness for C8 at an all-background 2×2 mask. -/
theorem get_bbox_empty_mask_witness :
    fgPixels [[false, false], [false, false]] = [] ∧
      get_bbox [[false, false], [false, false]] = Except.error DataError.emptyMask :=
  ⟨by decide, get_bbox_empty_mask [[false, false], [false, false]] (by decide)⟩

/-- Truncation toward zero respects any integer upper bound of its
argument. -/
theorem truncQ_le_intCast {q : ℚ} {n : ℤ} (h : q ≤ (n : ℚ)) : truncQ q ≤ n := by
  unfold truncQ
  split
  · exact Int.ceil_le.mpr h
  · calc ⌊q⌋ ≤ ⌊(n : ℚ)⌋ := Int.floor_le_floor h
      _ = n := Int.floor_intCast n

/-- Truncation toward zero respects any nonnegative integer lower bound of
its argument. -/
theorem intCast_le_truncQ {q : ℚ} {n : ℤ} (hn : 0 ≤ n) (h : (n : ℚ) ≤ q) : n ≤ truncQ q := by
  unfold truncQ
  split
  · next hq =>
      exfalso
      have h0 : (0 : ℚ) ≤ (n : ℚ) := by exact_mod_cast hn
      exact absurd (lt_of_le_of_lt (h0.trans h) hq) (lt_irrefl 0)
  · exact Int.le_floor.mpr h

/-- C5 counterexample: on the tight mask box `(0, 0, 3, 4)` with the
default `pad_size = 0.1`, Directory mode returns `(0, 0, 3, 4)` — width 3
but height 4, not a square — and Multi-scene mode returns `(-1, 0, 3, 4)`,
whose x-extent sums to 2 instead of `0 + 3 = 3`, so it is not symmetric
about the input box's center `x = 3/2`. -/
theorem square_bbox_square_counterexample :
    ((square_bbox_dir ⟨0, 0, 3, 4⟩ (1/10)).x1 - (square_bbox_dir ⟨0, 0, 3, 4⟩ (1/10)).x0 ≠
      (square_bbox_dir ⟨0, 0, 3, 4⟩ (1/10)).y1 - (square_bbox_dir ⟨0, 0, 3, 4⟩ (1/10)).y0) ∧
      (square_bbox_mvmc ⟨0, 0, 3, 4⟩ (1/10)).x0 + (square_bbox_mvmc ⟨0, 0, 3, 4⟩ (1/10)).x1 ≠
        (0 : ℤ) + 3 := by
  have h1 : square_bbox_dir ⟨0, 0, 3, 4⟩ (1/10) = ⟨0, 0, 3, 4⟩ := by
    norm_num [square_bbox_dir, truncQ, Box.mk.injEq, Int.ceil_neg]
  have h2 : square_bbox_mvmc ⟨0, 0, 3, 4⟩ (1/10) = ⟨-1, 0, 3, 4⟩ := by
    norm_num [square_bbox_mvmc, truncQ, Box.mk.injEq, Int.ceil_neg]
  rw [h1, h2]
  decide

/-- C5 amended: in Multi-scene mode — where center and half-extent are
cast to int before the box is formed — the box is always exactly square,
and it is symmetric about the integer-truncated center of the input box
(not its exact center); in Directory mode the cast happens after the box
is formed and the integer result need not be square. -/
theorem square_bbox_mvmc_square_centered (b : Box) (pad : ℚ) :
    (square_bbox_mvmc b pad).x1 - (square_bbox_mvmc b pad).x0 =
        (square_bbox_mvmc b pad).y1 - (square_bbox_mvmc b pad).y0 ∧
      (square_bbox_mvmc b pad).x0 + (square_bbox_mvmc b pad).x1 =
        2 * truncQ (((b.x0 : ℚ) + (b.x1 : ℚ)) / 2) ∧
      (square_bbox_mvmc b pad).y0 + (square_bbox_mvmc b pad).y1 =
        2 * truncQ (((b.y0 : ℚ) + (b.y1 : ℚ)) / 2) := by
  refine ⟨?_, ?_, ?_⟩ <;> (simp only [square_bbox_mvmc]; ring)

/-- C6 counterexample: in Multi-scene mode the valid box `(0, 0, 1, 1)`
with the default `pad_size = 0.1` yields the degenerate square box
`(0, 0, 0, 0)`, which does not contain the input box (`x1 = 0 < 1`), so
the padded square box does not always contain the tight box. -/
theorem square_bbox_contains_counterexample :
    (0 : ℚ) ≤ 1/10 ∧ (square_bbox_mvmc ⟨0, 0, 1, 1⟩ (1/10)).x1 < 1 := by
  have h : square_bbox_mvmc ⟨0, 0, 1, 1⟩ (1/10) = ⟨0, 0, 0, 0⟩ := by
    norm_num [square_bbox_mvmc, truncQ, Box.mk.injEq, Int.ceil_neg]
  refine ⟨by norm_num, ?_⟩
  rw [h]
  decide

/-- C6 amended: in Directory mode, for every valid input box (nonnegative
mask-pixel coordinates, nonempty in the weak sense `x0 ≤ x1`, `y0 ≤ y1`)
and every `pad_size ≥ 0`, the padded square box fully contains the input
box in both axes; in Multi-scene mode the pre-truncation of center and
half-extent can shrink the box below the input box (see the
counterexample). -/
theorem square_bbox_dir_contains (b : Box) (pad : ℚ) (hp : 0 ≤ pad)
    (hx0 : 0 ≤ b.x0) (hy0 : 0 ≤ b.y0) (hx : b.x0 ≤ b.x1) (hy : b.y0 ≤ b.y1) :
    (square_bbox_dir b pad).x0 ≤ b.x0 ∧ b.x1 ≤ (square_bbox_dir b pad).x1 ∧
      (square_bbox_dir b pad).y0 ≤ b.y0 ∧ b.y1 ≤ (square_bbox_dir b pad).y1 := by
  obtain ⟨x0, y0, x1, y1⟩ := b
  dsimp only at hx0 hy0 hx hy ⊢
  simp only [square_bbox_dir]
  set M : ℤ := max (x1 - x0) (y1 - y0) with hM
  have hMx : (x1 - x0) ≤ M := le_max_left _ _
  have hMy : (y1 - y0) ≤ M := le_max_right _ _
  have hM0 : 0 ≤ M := le_trans (by omega) hMx
  have hMxQ : ((x1 : ℚ) - (x0 : ℚ)) ≤ (M : ℚ) := by exact_mod_cast hMx
  have hMyQ : ((y1 : ℚ) - (y0 : ℚ)) ≤ (M : ℚ) := by exact_mod_cast hMy
  have hM0Q : (0 : ℚ) ≤ (M : ℚ) := by exact_mod_cast hM0
  have hpad : (M : ℚ) / 2 ≤ (M : ℚ) / 2 * (1 + pad) := by nlinarith
  refine ⟨truncQ_le_intCast (by linarith), intCast_le_truncQ (by omega) (by linarith),
    truncQ_le_intCast (by linarith), intCast_le_truncQ (by omega) (by linarith)⟩

/-- Witness for C6 (amended) at the box `(0, 0, 3, 4)` with the default
`pad_size = 0.1`. -/
theorem square_bbox_dir_contains_witness :
    (0 : ℚ) ≤ 1/10 ∧ (0 : ℤ) ≤ (Box.mk 0 0 3 4).x0 ∧ (0 : ℤ) ≤ (Box.mk 0 0 3 4).y0 ∧
      (Box.mk 0 0 3 4).x0 ≤ (Box.mk 0 0 3 4).x1 ∧
      (Box.mk 0 0 3 4).y0 ≤ (Box.mk 0 0 3 4).y1 ∧
      ((square_bbox_dir ⟨0, 0, 3, 4⟩ (1/10)).x0 ≤ (Box.mk 0 0 3 4).x0 ∧
        (Box.mk 0 0 3 4).x1 ≤ (square_bbox_dir ⟨0, 0, 3, 4⟩ (1/10)).x1 ∧
        (square_bbox_dir ⟨0, 0, 3, 4⟩ (1/10)).y0 ≤ (Box.mk 0 0 3 4).y0 ∧
        (Box.mk 0 0 3 4).y1 ≤ (square_bbox_dir ⟨0, 0, 3, 4⟩ (1/10)).y1) :=
  ⟨by norm_num, by decide, by decide, by decide, by decide,
    square_bbox_dir_contains ⟨0, 0, 3, 4⟩ (1/10) (by norm_num)
      (by decide) (by decide) (by decide) (by decide)⟩

/-- C10: the padded square bbox stored in a View is not clamped to the
image bounds in either loader mode. For a 2-wide, 20-tall image whose
mask is entirely foreground, `get_bbox` returns the in-bounds tight box
`(0, 0, 2, 20)`, yet Directory mode computes the square box
`(-10, -1, 12, 21)` — negative `x0`/`y0`, `x1 = 12` beyond the image
width 2, `y1 = 21` beyond the image height 20 — and Multi-scene mode
stores the same out-of-bounds box in the scene's views, with no clamping
between its computation and the crop. -/
theorem bbox_not_clamped :
    get_bbox (List.replicate 20 [true, true]) = Except.ok ⟨0, 0, 2, 20⟩ ∧
      (square_bbox_dir ⟨0, 0, 2, 20⟩ (1/10)).x0 < 0 ∧
      2 < (square_bbox_dir ⟨0, 0, 2, 20⟩ (1/10)).x1 ∧
      20 < (square_bbox_dir ⟨0, 0, 2, 20⟩ (1/10)).y1 ∧
      load_scene_views (1/10) [⟨0, 0, 2, 20⟩] false = [⟨-10, -1, 12, 21⟩] := by
  have h1 : square_bbox_dir ⟨0, 0, 2, 20⟩ (1/10) = ⟨-10, -1, 12, 21⟩ := by
    norm_num [square_bbox_dir, truncQ, Box.mk.injEq, Int.ceil_neg]
  have h2 : square_bbox_mvmc ⟨0, 0, 2, 20⟩ (1/10) = ⟨-10, -1, 12, 21⟩ := by
    norm_num [square_bbox_mvmc, truncQ, Box.mk.injEq, Int.ceil_neg]
  refine ⟨by rfl, ?_, ?_, ?_, ?_⟩
  · rw [h1]; decide
  · rw [h1]; decide
  · rw [h1]; decide
  · rw [show load_scene_views (1/10) [(⟨0, 0, 2, 20⟩ : Box)] false =
        [square_bbox_mvmc ⟨0, 0, 2, 20⟩ (1/10)] from rfl, h2]

/-- C1 counterexample: with exactly one device and illumination requested,
the partitioner assigns the single device to illumination and the empty
device list to the main optimization — the device is not shared between
the two tasks. -/
theorem partition_gpus_single_counterexample :
    (partition_gpus 1 true).gpu_ids = [] ∧
      (partition_gpus 1 true).gpu_id_illumination = some 0 := by decide

/-- C1 amended: for every device count N ≥ 1 with illumination requested,
the partitioner (a total function — it never raises) reserves the
highest-indexed device N-1 exclusively for illumination (it never appears
in the main optimization's list) and hands devices 0..N-2 to the main
optimization; in particular with N = 1 the main optimization receives the
empty device list, rather than sharing the single device. -/
theorem partition_gpus_illumination (n : ℕ) (hn : 1 ≤ n) :
    (partition_gpus n true).gpu_ids = List.range (n - 1) ∧
      (partition_gpus n true).gpu_id_illumination = some ((n : ℤ) - 1) ∧
      (partition_gpus n true).gpu_ids.length = n - 1 ∧
      (∀ i ∈ (partition_gpus n true).gpu_ids, (i : ℤ) ≠ (n : ℤ) - 1) ∧
      (n = 1 → (partition_gpus n true).gpu_ids = []) := by
  have h : partition_gpus n true =
      GpuAssignment.mk (List.range (n - 1)) (some ((n : ℤ) - 1)) := rfl
  rw [h]
  dsimp only
  refine ⟨rfl, rfl, List.length_range _, ?_, ?_⟩
  · intro i hi
    rw [List.mem_range] at hi
    omega
  · intro h1
    subst h1
    rfl

/-- Witness for C1 (amended) at the degraded single-device case N = 1. -/
theorem partition_gpus_illumination_witness :
    1 ≤ 1 ∧
      ((partition_gpus 1 true).gpu_ids = List.range (1 - 1) ∧
        (partition_gpus 1 true).gpu_id_illumination = some (((1 : ℕ) : ℤ) - 1) ∧
        (partition_gpus 1 true).gpu_ids.length = 1 - 1 ∧
        (∀ i ∈ (partition_gpus 1 true).gpu_ids, (i : ℤ) ≠ ((1 : ℕ) : ℤ) - 1) ∧
        (1 = 1 → (partition_gpus 1 true).gpu_ids = [])) :=
  ⟨by decide, partition_gpus_illumination 1 (by decide)⟩

/-- C2: when a checkpoint already exists at the target weights path and
the force flag is not set, `main` returns right after `os.makedirs` and
before any stage: its trace contains no visualization event, no
optimization stage, and no checkpoint write — the run is a no-op, not an
error. -/
theorem main_resume_noop (args : Args) (has_extents : Bool) (scene_ids : List ℤ)
    (hforce : args.force = false) :
    main_trace args true has_extents scene_ids = [Event.makeDirs] ∧
      (main_trace args true has_extents scene_ids).filter isVisualize = [] ∧
      (main_trace args true has_extents scene_ids).filter isOptimizeStage = [] ∧
      Event.saveParameters ∉ main_trace args true has_extents scene_ids := by
  have h : main_trace args true has_extents scene_ids = [Event.makeDirs] := by
    simp [main_trace, hforce]
  rw [h]
  refine ⟨rfl, by decide, by decide, by decide⟩

/-- Witness for C2 at a concrete default configuration. -/
theorem main_resume_noop_witness :
    (Args.mk false false false true 500 500 3000).force = false ∧
      (main_trace (Args.mk false false false true 500 500 3000) true true [] =
          [Event.makeDirs] ∧
        (main_trace (Args.mk false false false true 500 500 3000) true true []).filter
            isVisualize = [] ∧
        (main_trace (Args.mk false false false true 500 500 3000) true true []).filter
            isOptimizeStage = [] ∧
        Event.saveParameters ∉ main_trace (Args.mk false false false true 500 500 3000)
            true true []) :=
  ⟨by decide, main_resume_noop (Args.mk false false false true 500 500 3000) true [] (by decide)⟩

/-- Mesh-export events are not visualizations. -/
theorem filter_vis_map_saveObj (l : List ℤ) :
    (l.map Event.saveObj).filter isVisualize = [] := by
  induction l with
  | nil => rfl
  | cons a t ih => simp [isVisualize, ih]

/-- Mesh-export events are not illumination stages. -/
theorem all_not_illum_map_saveObj (l : List ℤ) :
    (l.map Event.saveObj).all (fun e => !isIlluminationStage e) = true := by
  induction l with
  | nil => rfl
  | cons a t ih => simp [isIlluminationStage, ih]

/-- C3 counterexample: a complete run configured with
`predict_illumination = True` contains no illumination-optimization stage
at all — the `optimize_radiance` block is commented out in `main.py` — so
the claimed optional `OptimizeIllumination` stage never executes even when
requested. -/
theorem main_stage_order_counterexample :
    (Args.mk true true false true 500 500 3000).predict_illumination = true ∧
      (main_trace (Args.mk true true false true 500 500 3000) false true [5]).any
        isIlluminationStage = false := by decide

/-- C3 amended: every run that does not exit early executes, in order:
camera optimization, shape optimization, texture optimization, then (when
requested) one mesh export per scene named by scene id, then the
checkpoint write as the final step, with a stage-tagged visualization
snapshot after camera initialization and after each completed stage (four
snapshots in total); the illumination-optimization stage never executes,
even when requested, because it is disabled in the source. -/
theorem main_stage_order (args : Args) (weights_exists : Bool) (has_extents : Bool)
    (scene_ids : List ℤ)
    (hrun : args.force = true ∨ weights_exists = false)
    (hext : args.mvmc = true ∨ has_extents = true) :
    main_trace args weights_exists has_extents scene_ids =
      [Event.makeDirs,
       Event.visualize StageLabel.initialCameras,
       Event.optimizeCamera args.num_iterations_camera,
       Event.visualize StageLabel.optimizedCameras,
       Event.optimizeShape args.num_iterations_shape,
       Event.visualize StageLabel.optimizedShape,
       Event.optimizeTexture args.num_iterations_texture,
       Event.visualize StageLabel.optimizedTexture]
      ++ (if args.export_mesh then scene_ids.map Event.saveObj else [])
      ++ [Event.saveParameters] ∧
      ((main_trace args weights_exists has_extents scene_ids).filter isVisualize).length = 4 ∧
      (main_trace args weights_exists has_extents scene_ids).getLast? =
        some Event.saveParameters ∧
      (main_trace args weights_exists has_extents scene_ids).all
        (fun e => !isIlluminationStage e) = true := by
  have h : main_trace args weights_exists has_extents scene_ids =
      [Event.makeDirs,
       Event.visualize StageLabel.initialCameras,
       Event.optimizeCamera args.num_iterations_camera,
       Event.visualize StageLabel.optimizedCameras,
       Event.optimizeShape args.num_iterations_shape,
       Event.visualize StageLabel.optimizedShape,
       Event.optimizeTexture args.num_iterations_texture,
       Event.visualize StageLabel.optimizedTexture]
      ++ (if args.export_mesh then scene_ids.map Event.saveObj else [])
      ++ [Event.saveParameters] := by
    rcases hrun with h1 | h1 <;> rcases hext with h2 | h2 <;>
      simp [main_trace, h1, h2]
  refine ⟨h, ?_, ?_, ?_⟩
  · rw [h]
    cases hm : args.export_mesh <;>
      simp [List.filter_append, isVisualize, filter_vis_map_saveObj]
  · rw [h]
    exact List.getLast?_concat _
  · rw [h]
    cases hm : args.export_mesh <;>
      simp [List.all_append, isIlluminationStage, all_not_illum_map_saveObj]

/-- Witness for C3 (amended) at a concrete forced run with mesh export of
the single scene 5. -/
theorem main_stage_order_witness :
    ((Args.mk true true true true 500 500 3000).force = true ∨ false = false) ∧
      ((Args.mk true true true true 500 500 3000).mvmc = true ∨ true = true) ∧
      (main_trace (Args.mk true true true true 500 500 3000) false true [5] =
        [Event.makeDirs,
         Event.visualize StageLabel.initialCameras,
         Event.optimizeCamera (Args.mk true true true true 500 500 3000).num_iterations_camera,
         Event.visualize StageLabel.optimizedCameras,
         Event.optimizeShape (Args.mk true true true true 500 500 3000).num_iterations_shape,
         Event.visualize StageLabel.optimizedShape,
         Event.optimizeTexture (Args.mk true true true true 500 500 3000).num_iterations_texture,
         Event.visualize StageLabel.optimizedTexture]
        ++ (if (Args.mk true true true true 500 500 3000).export_mesh then
              ([5] : List ℤ).map Event.saveObj else [])
        ++ [Event.saveParameters] ∧
        ((main_trace (Args.mk true true true true 500 500 3000) false true [5]).filter
            isVisualize).length = 4 ∧
        (main_trace (Args.mk true true true true 500 500 3000) false true [5]).getLast? =
          some Event.saveParameters ∧
        (main_trace (Args.mk true true true true 500 500 3000) false true [5]).all
          (fun e => !isIlluminationStage e) = true) :=
  ⟨Or.inr rfl, Or.inr rfl,
    main_stage_order (Args.mk true true true true 500 500 3000) false true [5]
      (Or.inr rfl) (Or.inr rfl)⟩

/-- C4 counterexample: `os.listdir` order is not specified by the OS; two
listings of the same directory that are permutations of each other make
Multi-scene mode select different scenes (`num_scenes = 1`), so the loader
output is not determined by the input files alone. -/
theorem scene_dirs_order_counterexample :
    ([0, 1] : List ℕ).Perm [1, 0] ∧ scene_dirs [0, 1] 1 ≠ scene_dirs [1, 0] 1 :=
  ⟨by decide, by decide⟩

/-- C4 amended: Directory mode is deterministic — its view order is the
sorted file listing, invariant under the OS listing order — but
Multi-scene mode selects and orders scenes by the raw unsorted
`os.listdir` order, which is not reproducible (see the counterexample);
within one scene, views do follow annotation order. -/
theorem dir_image_order_deterministic (l₁ l₂ : List ℕ) (h : l₁.Perm l₂) :
    dir_image_order l₁ = dir_image_order l₂ := by
  have hperm : (dir_image_order l₁).Perm (dir_image_order l₂) :=
    ((List.mergeSort_perm l₁ _).trans h).trans (List.mergeSort_perm l₂ _).symm
  have htrans : ∀ a b c : ℕ, Nat.ble a b = true → Nat.ble b c = true →
      Nat.ble a c = true := by
    intro a b c hab hbc
    simp only [Nat.ble_eq] at hab hbc ⊢
    omega
  have htotal : ∀ a b : ℕ, (Nat.ble a b || Nat.ble b a) = true := by
    intro a b
    simp only [Bool.or_eq_true, Nat.ble_eq]
    omega
  have hs₁ : List.Sorted (fun a b : ℕ => a ≤ b) (dir_image_order l₁) := by
    have hp : List.Pairwise (fun a b : ℕ => a ≤ b) (l₁.mergeSort Nat.ble) :=
      (@List.sorted_mergeSort ℕ Nat.ble htrans htotal l₁).imp
        (fun hab => Nat.le_of_ble_eq_true hab)
    exact hp
  have hs₂ : List.Sorted (fun a b : ℕ => a ≤ b) (dir_image_order l₂) := by
    have hp : List.Pairwise (fun a b : ℕ => a ≤ b) (l₂.mergeSort Nat.ble) :=
      (@List.sorted_mergeSort ℕ Nat.ble htrans htotal l₂).imp
        (fun hab => Nat.le_of_ble_eq_true hab)
    exact hp
  exact List.eq_of_perm_of_sorted hperm hs₁ hs₂

/-- Witness for C4 (amended) on the two listings `[1, 0]` and `[0, 1]`. -/
theorem dir_image_order_deterministic_witness :
    ([1, 0] : List ℕ).Perm [0, 1] ∧ dir_image_order [1, 0] = dir_image_order [0, 1] :=
  ⟨by decide, dir_image_order_deterministic [1, 0] [0, 1] (by decide)⟩

/-- C9: in Multi-scene mode with `reserve_first_image = True` each scene
yields exactly `len(annotations) - 1` views, omitting precisely the first
annotation; with `reserve_first_image = False` it yields one view per
annotation. -/
theorem load_scene_views_reserve (pad : ℚ) (anns : List Box) (h : 1 ≤ anns.length) :
    (load_scene_views pad anns true).length + 1 = anns.length ∧
      load_scene_views pad anns true =
        anns.tail.map (fun b => square_bbox_mvmc b pad) ∧
      load_scene_views pad anns false =
        anns.map (fun b => square_bbox_mvmc b pad) := by
  refine ⟨?_, ?_, rfl⟩
  · simp [load_scene_views]
    omega
  · simp [load_scene_views, List.drop_one]

/-- Witness for C9 on a two-annotation scene. -/
theorem load_scene_views_reserve_witness :
    1 ≤ ([⟨0, 0, 2, 2⟩, ⟨1, 1, 3, 3⟩] : List Box).length ∧
      ((load_scene_views 0 [⟨0, 0, 2, 2⟩, ⟨1, 1, 3, 3⟩] true).length + 1 =
          ([⟨0, 0, 2, 2⟩, ⟨1, 1, 3, 3⟩] : List Box).length ∧
        load_scene_views 0 [⟨0, 0, 2, 2⟩, ⟨1, 1, 3, 3⟩] true =
          ([⟨0, 0, 2, 2⟩, ⟨1, 1, 3, 3⟩] : List Box).tail.map
            (fun b => square_bbox_mvmc b 0) ∧
        load_scene_views 0 [⟨0, 0, 2, 2⟩, ⟨1, 1, 3, 3⟩] false =
          ([⟨0, 0, 2, 2⟩, ⟨1, 1, 3, 3⟩] : List Box).map
            (fun b => square_bbox_mvmc b 0)) :=
  ⟨by decide, load_scene_views_reserve 0 [⟨0, 0, 2, 2⟩, ⟨1, 1, 3, 3⟩] (by decide)⟩
